import Mathlib

/-!
Verification of the launcher in `app.py` of the career-chatbot repository.

The launcher loads environment variables via `load_dotenv()`, builds a
`ChatbotConfig` with a literal `name` and `github_username` read from the
environment with `os.getenv("GITHUB_USERNAME", "ryan-griego")`, constructs
a `CareerChatbot` from that configuration, and calls `launch_interface()`.

We embed the process environment as a map from variable names to optional
string values, and the launcher's body as a function from that environment
to a trace of the events it performs, in order.
-/

/-- A process environment snapshot: each variable name is either bound to a
string value (possibly empty) or absent. -/
def Env : Type := String → Option String

/-- Embedding of Python's `os.getenv(key, default)`: returns the bound value
when `key` is present in the environment (even when that value is the empty
string), and `default` only when `key` is absent. -/
def getenv (env : Env) (key default : String) : String :=
  (env key).getD default

/-- The configuration value built by the launcher (fields of `ChatbotConfig`
that `app.py` populates). -/
structure ChatbotConfig where
  name : String
  github_username : String
deriving DecidableEq, Repr

/-- Modelled from the spec: the `ChatbotConfig` constructor (class `models.ChatbotConfig`,
whose definition is not part of the visible source) accepts
`{name, github_username}` and returns an immutable configuration value;
per the spec, construction does not fail for any string arguments. -/
def ChatbotConfig.construct (n g : String) : Except String ChatbotConfig :=
  Except.ok { name := n, github_username := g }

/-- The configuration-construction step of `main` (app.py lines 14-17):
`name` is the literal `"Ryan Griego"` and `github_username` is
`os.getenv("GITHUB_USERNAME", "ryan-griego")`. -/
def mkConfig (env : Env) : ChatbotConfig :=
  { name := "Ryan Griego",
    github_username := getenv env "GITHUB_USERNAME" "ryan-griego" }

/-- The configuration-construction step with its (per the spec, unreachable)
failure branch made explicit, going through the external constructor. -/
def buildConfig (env : Env) : Except String ChatbotConfig :=
  ChatbotConfig.construct "Ryan Griego" (getenv env "GITHUB_USERNAME" "ryan-griego")

/-- Effect of the environment-file load step on the environment: variables
defined by the source are applied, with existing process environment
variables taking precedence; an absent source changes nothing. -/
def applyDotenv (source : Option (List (String × String))) (env : Env) : Env :=
  match source with
  | none => env
  | some kvs => fun k => (env k).orElse (fun _ => kvs.lookup k)

/-- Modelled from the spec: the external environment-file loader
`dotenv.load_dotenv` (its implementation is not part of the visible source)
is best-effort: when the environment-file source is absent it raises no
error and leaves the environment unchanged; when present, only variables it
defines are applied and existing process environment variables take
precedence. -/
def load_dotenv (source : Option (List (String × String))) (env : Env) :
    Except String Env :=
  Except.ok (applyDotenv source env)

/-- The observable events the launcher performs, in order. -/
inductive Event where
  | load_env : Event
  | construct_config : ChatbotConfig → Event
  | construct_chatbot : ChatbotConfig → Event
  | launch_interface : Event
deriving DecidableEq, Repr

/-- The body of `main` (app.py lines 8-21) as a trace of events: load the
environment file, build the configuration from the resulting environment,
build the chatbot from that configuration, launch the interface, and do
nothing afterwards.  A failure of the load step would propagate uncaught
(empty trace); in the model that branch is unreachable. -/
def main_trace (source : Option (List (String × String))) (env : Env) :
    List Event :=
  match load_dotenv source env with
  | Except.error _ => []
  | Except.ok env2 =>
    let config := mkConfig env2
    [Event.load_env,
     Event.construct_config config,
     Event.construct_chatbot config,
     Event.launch_interface]

/-- Concrete environment in which `GITHUB_USERNAME` is bound to the empty
string and every other variable is absent. -/
def envEmptyGU : Env :=
  fun k => if k = "GITHUB_USERNAME" then some "" else none

/-- Concrete environment in which `GITHUB_USERNAME` is bound to
`"octocat"` and every other variable is absent. -/
def envOctocat : Env :=
  fun k => if k = "GITHUB_USERNAME" then some "octocat" else none

/-- Concrete environment in which every variable is absent. -/
def envNone : Env := fun _ => none

/-- Concrete environment in which `GITHUB_USERNAME` is absent but an
unrelated variable `HOME` is bound. -/
def envHomeOnly : Env :=
  fun k => if k = "HOME" then some "/root" else none

/-- C1 counterexample: with `GITHUB_USERNAME` bound to the empty string,
the constructed configuration's `github_username` is the empty string, not
the fallback `"ryan-griego"`: `os.getenv` substitutes the default only when
the variable is absent, not when it is bound to the empty string. -/
theorem c1_empty_not_fallback :
    (mkConfig envEmptyGU).github_username = "" ∧
    (mkConfig envEmptyGU).github_username ≠ "ryan-griego" := by
  constructor
  · rfl
  · decide

/-- C1 (amended): for every environment state in which `GITHUB_USERNAME` is
bound to the empty string, the constructed configuration's
`github_username` equals the empty string; the fallback `"ryan-griego"` is
used only when the variable is absent. -/
theorem c1_empty_yields_empty (env : Env)
    (h : env "GITHUB_USERNAME" = some "") :
    (mkConfig env).github_username = "" := by
  simp [mkConfig, getenv, h]

/-- C1 witness: the amended claim holds at the concrete environment binding
`GITHUB_USERNAME` to the empty string. -/
theorem c1_empty_yields_empty_witness :
    (mkConfig envEmptyGU).github_username = "" :=
  c1_empty_yields_empty envEmptyGU (by decide)

/-- C2: whenever `GITHUB_USERNAME` is present (bound to any string `S`,
including the empty string), the constructed configuration's
`github_username` equals exactly `S`; when the variable is absent the
fallback `"ryan-griego"` is substituted. -/
theorem c2_present_exact_absent_fallback (env : Env) :
    (∀ S : String, env "GITHUB_USERNAME" = some S →
      (mkConfig env).github_username = S) ∧
    (env "GITHUB_USERNAME" = none →
      (mkConfig env).github_username = "ryan-griego") := by
  constructor
  · intro S h
    simp [mkConfig, getenv, h]
  · intro h
    simp [mkConfig, getenv, h]

/-- C2 witness: at the concrete environment binding `GITHUB_USERNAME` to
the empty string, the configuration carries the bound (empty) string. -/
theorem c2_present_exact_absent_fallback_witness :
    (mkConfig envEmptyGU).github_username = "" :=
  (c2_present_exact_absent_fallback envEmptyGU).1 "" (by decide)

/-- C3: whenever `GITHUB_USERNAME` is bound to a non-empty string `S`, the
constructed configuration's `github_username` equals `S`. -/
theorem c3_nonempty_exact (env : Env) (S : String) (hne : S ≠ "")
    (h : env "GITHUB_USERNAME" = some S) :
    (mkConfig env).github_username = S := by
  simp [mkConfig, getenv, h]

/-- C3 witness: with `GITHUB_USERNAME=octocat`, the configuration's
`github_username` is `"octocat"`. -/
theorem c3_nonempty_exact_witness :
    (mkConfig envOctocat).github_username = "octocat" :=
  c3_nonempty_exact envOctocat "octocat" (by decide) (by decide)

/-- C4: whenever `GITHUB_USERNAME` is absent from the environment, the
constructed configuration's `github_username` equals `"ryan-griego"`. -/
theorem c4_absent_fallback (env : Env)
    (h : env "GITHUB_USERNAME" = none) :
    (mkConfig env).github_username = "ryan-griego" := by
  simp [mkConfig, getenv, h]

/-- C4 witness: with no environment variables set, the configuration's
`github_username` is `"ryan-griego"`. -/
theorem c4_absent_fallback_witness :
    (mkConfig envNone).github_username = "ryan-griego" :=
  c4_absent_fallback envNone rfl

/-- C5: for every environment state, the constructed configuration's
`name` field equals the literal `"Ryan Griego"`. -/
theorem c5_name_literal (env : Env) :
    (mkConfig env).name = "Ryan Griego" := rfl

/-- C6: configuration construction is total: for every environment state
the construction step succeeds with the configuration value built from the
resolved `github_username`; its failure branch is unreachable. -/
theorem c6_construction_total (env : Env) :
    buildConfig env = Except.ok (mkConfig env) := rfl

/-- C7: configuration construction is a deterministic function of the
environment mapping: two constructions from the same environment snapshot
(two pointwise-equal snapshots) yield equal configuration values. -/
theorem c7_deterministic (env1 env2 : Env)
    (h : ∀ k, env1 k = env2 k) :
    mkConfig env1 = mkConfig env2 := by
  simp [mkConfig, getenv, h "GITHUB_USERNAME"]

/-- C7 witness: two constructions from the no-variable snapshot yield equal
values. -/
theorem c7_deterministic_witness :
    mkConfig envNone = mkConfig envNone :=
  c7_deterministic envNone envNone (fun _ => rfl)

/-- C8: the launcher's control flow is strictly linear: for every
environment-file source and environment, the trace of `main` is exactly the
environment load, then the construction of the configuration from the
post-load environment, then the construction of the chatbot from that same
configuration, then exactly one launch of the interface, with no further
event afterwards. -/
theorem c8_linear_trace (source : Option (List (String × String)))
    (env : Env) :
    main_trace source env =
      [Event.load_env,
       Event.construct_config (mkConfig (applyDotenv source env)),
       Event.construct_chatbot (mkConfig (applyDotenv source env)),
       Event.launch_interface] := rfl

/-- C8 witness: the trace at a concrete source and environment. -/
theorem c8_linear_trace_witness :
    main_trace none envNone =
      [Event.load_env,
       Event.construct_config (mkConfig envNone),
       Event.construct_chatbot (mkConfig envNone),
       Event.launch_interface] :=
  c8_linear_trace none envNone

/-- C9: when the environment-file source is absent, the load step raises no
error and leaves the environment unchanged, so startup proceeds to
configuration construction. -/
theorem c9_absent_source_ok (env : Env) :
    load_dotenv none env = Except.ok env := rfl

/-- C10: noninterference: the constructed configuration depends only on the
binding of `GITHUB_USERNAME` — two environment states that agree on
`GITHUB_USERNAME` (both absent, or both bound to the same string) yield
equal configuration values, however the other variables differ. -/
theorem c10_noninterference (env1 env2 : Env)
    (h : env1 "GITHUB_USERNAME" = env2 "GITHUB_USERNAME") :
    mkConfig env1 = mkConfig env2 := by
  simp [mkConfig, getenv, h]

/-- C10 witness: the all-absent environment and the environment binding
only `HOME` agree on `GITHUB_USERNAME` and yield equal configurations. -/
theorem c10_noninterference_witness :
    mkConfig envNone = mkConfig envHomeOnly :=
  c10_noninterference envNone envHomeOnly (by decide)
